import Mathlib

/-!
Shallow embedding of `src/collisions.ipynb`, a linear notebook that walks
through an order-of-magnitude estimate of electron-proton collision rates
in the solar corona and solar wind by delegating every physical computation
to the PlasmaPy formulary library.

The notebook's own logic is: build scenario dictionaries, invoke the library
functions in a fixed order, and display the results.  The library calls are
external to this repository; each is modelled here as a recorded-output
table: the notebook file stores the value each call produced (the cell
outputs are part of the source), so the model maps exactly the inputs the
script passes to exactly the outputs the notebook records, and is undefined
(`none`) elsewhere.  Numeric values are exact rationals transcribed from the
cell outputs; physical units are explicit tags mirroring the astropy unit
annotations shown in those outputs.
-/

namespace Collisions

/-- Physical unit tags, mirroring the astropy units appearing in the
notebook (`u.K`, `u.cm**-3`, `u.m / u.s`, `u.G`, `"Hz"`, `u.m`,
`u.dimensionless_unscaled`). -/
inductive PhysUnit where
  | kelvin
  | perCm3
  | meter
  | metersPerSecond
  | hertz
  | gauss
  | dimensionless
deriving DecidableEq, Repr

/-- A unit-tagged numeric value, the notebook's `astropy.units.Quantity`:
a scalar magnitude together with its physical unit. -/
structure Quantity where
  val : ℚ
  unit : PhysUnit
deriving DecidableEq, Repr

instance : Inhabited Quantity := ⟨⟨0, PhysUnit.dimensionless⟩⟩

/-- A scenario record, the notebook's input dictionary
`{"T": ..., "n_e": ..., "species": [...]}`. -/
structure Scenario where
  T : Quantity
  n_e : Quantity
  species : List String
deriving DecidableEq, Repr

/-- The corona scenario dictionary, transcribed from the notebook cell:
`solar_corona = {"T": 1e6 * u.K, "n_e": 1e9 * u.cm**-3, "species": ["e-", "p+"]}`. -/
def solar_corona : Scenario :=
  { T := ⟨1e6, PhysUnit.kelvin⟩
  , n_e := ⟨1e9, PhysUnit.perCm3⟩
  , species := ["e-", "p+"] }

/-- The solar-wind scenario dictionary, transcribed from the notebook cell:
`solar_wind = {"T": 6e5 * u.K, "n_e": 25 * u.cm**-3, "species": ["e-", "p+"]}`. -/
def solar_wind : Scenario :=
  { T := ⟨6e5, PhysUnit.kelvin⟩
  , n_e := ⟨25, PhysUnit.perCm3⟩
  , species := ["e-", "p+"] }

/-- The corona temperature binding `T_corona = 1e6 * u.K`. -/
def T_corona : Quantity := ⟨1e6, PhysUnit.kelvin⟩

/-- The solar-wind temperature binding `T_wind = 6*10**5*u.K`. -/
def T_wind : Quantity := ⟨6e5, PhysUnit.kelvin⟩

/-- The corona density binding `n = 1e9 * u.cm**-3`. -/
def n : Quantity := ⟨1e9, PhysUnit.perCm3⟩

/-- The solar-wind density binding `n_wind = 25 * u.cm**-3`. -/
def n_wind : Quantity := ⟨25, PhysUnit.perCm3⟩

/-- The magnetic field binding `B = 50 * u.G`. -/
def B : Quantity := ⟨50, PhysUnit.gauss⟩

/-- Modelled from the spec: PlasmaPy `thermal_speed` (most-probable method,
`ndim=3`) is external library code; the model records the output the
notebook shows for the one call the script makes
(`thermal_speed(T=T_corona, particle=["e-","p+"], ...)` printing
`5505694.902726359 m / s 128486.5732808313 m / s`) and is undefined
elsewhere. -/
def thermal_speed (T : Quantity) (particle : List String) :
    Option (Quantity × Quantity) :=
  if T = T_corona ∧ particle = ["e-", "p+"] then
    some (⟨5505694.902726359, PhysUnit.metersPerSecond⟩,
          ⟨128486.5732808313, PhysUnit.metersPerSecond⟩)
  else none

/-- Modelled from the spec: PlasmaPy `impact_parameter` is external library
code; the model records the `(bmin, bmax)` outputs the notebook prints for
the two scenario dictionaries the script passes
(corona: `bmin = 1.05e-11 m`, `bmax = 2.18e-03 m`;
solar wind: `bmin = 1.39e-11 m`, `bmax = 1.07e+01 m`)
and is undefined elsewhere. -/
def impact_parameter (s : Scenario) : Option (Quantity × Quantity) :=
  if s = solar_corona then
    some (⟨1.05e-11, PhysUnit.meter⟩, ⟨2.18e-3, PhysUnit.meter⟩)
  else if s = solar_wind then
    some (⟨1.39e-11, PhysUnit.meter⟩, ⟨1.07e1, PhysUnit.meter⟩)
  else none

/-- Modelled from the spec: PlasmaPy `Coulomb_logarithm` is external library
code; the model records the outputs the notebook shows for the two scenario
dictionaries the script passes (corona: `19.150697742645406`;
solar wind: printed `Coulomb_log = 2.74e+01`) and is undefined elsewhere. -/
def Coulomb_logarithm (s : Scenario) : Option ℚ :=
  if s = solar_corona then some 19.150697742645406
  else if s = solar_wind then some 27.4
  else none

/-- The argument record of a
`coll.frequencies.MaxwellianCollisionFrequencies(...)` call: the two
particle kinds, the relative drift velocity, the temperatures and densities
of the two fluids, and the Coulomb logarithm. -/
structure MaxwellianCollisionFrequencies where
  a : String
  b : String
  v_drift : Quantity
  T_a : Quantity
  n_a : Quantity
  n_b : Quantity
  T_b : Quantity
  Coulomb_log : Quantity
deriving DecidableEq, Repr

/-- The `frequencies` object the script builds for the corona:
`MaxwellianCollisionFrequencies("e-", "p+", v_drift=0*u.m/u.s, T_a=T_corona,
n_a=n, n_b=n, T_b=T_corona, Coulomb_log=Coulomb_log)`, where `Coulomb_log`
is `Coulomb_logarithm(**solar_corona) * u.dimensionless_unscaled`. -/
def corona_frequencies : MaxwellianCollisionFrequencies :=
  { a := "e-", b := "p+"
  , v_drift := ⟨0, PhysUnit.metersPerSecond⟩
  , T_a := T_corona, n_a := n, n_b := n, T_b := T_corona
  , Coulomb_log := ⟨(Coulomb_logarithm solar_corona).getD 0,
                    PhysUnit.dimensionless⟩ }

/-- The `frequencies` object the script rebinds for the solar wind:
`MaxwellianCollisionFrequencies("e-", "p+", v_drift=0*u.m/u.s, T_a=T_wind,
n_a=n_wind, n_b=n_wind, T_b=T_wind, Coulomb_log=Coulomb_log)`, where
`Coulomb_log` is `Coulomb_logarithm(**solar_wind) * u.dimensionless_unscaled`. -/
def wind_frequencies : MaxwellianCollisionFrequencies :=
  { a := "e-", b := "p+"
  , v_drift := ⟨0, PhysUnit.metersPerSecond⟩
  , T_a := T_wind, n_a := n_wind, n_b := n_wind, T_b := T_wind
  , Coulomb_log := ⟨(Coulomb_logarithm solar_wind).getD 0,
                    PhysUnit.dimensionless⟩ }

/-- Modelled from the spec: the `Lorentz_collision_frequency` attribute of a
PlasmaPy `MaxwellianCollisionFrequencies` object is external library code;
the model records the output the notebook shows for the two argument
records the script builds (corona: `<Quantity 92.41654907 Hz>`;
solar wind: `<Quantity 7.10396736e-06 Hz>`) and is undefined elsewhere. -/
def MaxwellianCollisionFrequencies.Lorentz_collision_frequency
    (f : MaxwellianCollisionFrequencies) : Option Quantity :=
  if f = corona_frequencies then some ⟨92.41654907, PhysUnit.hertz⟩
  else if f = wind_frequencies then some ⟨7.10396736e-6, PhysUnit.hertz⟩
  else none

/-- Modelled from the spec: PlasmaPy `plasma_frequency` followed by the
notebook's `.to("Hz", equivalencies=u.dimensionless_angles())` conversion is
external library code; the model records the output the notebook shows for
the one call the script makes (`plasma_frequency(n, ['e-','p+'])` giving
`[1.78398637e+09, 4.16329453e+07] Hz`) and is undefined elsewhere. -/
def plasma_frequency (dens : Quantity) (particle : List String) :
    Option (List Quantity) :=
  if dens = n ∧ particle = ["e-", "p+"] then
    some [⟨1.78398637e9, PhysUnit.hertz⟩, ⟨4.16329453e7, PhysUnit.hertz⟩]
  else none

/-- Modelled from the spec: PlasmaPy `gyrofrequency` followed by the
notebook's `.to("Hz", equivalencies=u.dimensionless_angles())` conversion is
external library code; the model records the output the notebook shows for
the one call the script makes (`gyrofrequency(B, ['e-','p+'])` giving
`[8.79410005e+08, 4.78941658e+05] Hz`) and is undefined elsewhere. -/
def gyrofrequency (field : Quantity) (particle : List String) :
    Option (List Quantity) :=
  if field = B ∧ particle = ["e-", "p+"] then
    some [⟨8.79410005e8, PhysUnit.hertz⟩, ⟨4.78941658e5, PhysUnit.hertz⟩]
  else none

/-- The value the notebook displays from the cell expression
`Coulomb_logarithm(**solar_corona)` (shown as `19.150697742645406`). -/
def corona_CL_display : Option ℚ := Coulomb_logarithm solar_corona

/-- The environment of notebook bindings: one `Option` slot per variable the
script assigns, `none` before the assigning cell runs.  Python dictionaries
are mutable, so a later cell or library call could in principle overwrite a
slot; the trace below records what actually happens. -/
structure ScriptState where
  T_corona : Option Quantity := none
  v_e : Option Quantity := none
  v_p : Option Quantity := none
  solar_corona : Option Scenario := none
  bmin : Option Quantity := none
  bmax : Option Quantity := none
  n : Option Quantity := none
  Coulomb_log : Option Quantity := none
  frequencies : Option MaxwellianCollisionFrequencies := none
  B : Option Quantity := none
  solar_wind : Option Scenario := none
  T_wind : Option Quantity := none
  n_wind : Option Quantity := none
deriving DecidableEq, Repr

/-- The thermal-speed cell: `T_corona = 1e6 * u.K` and
`v_e, v_p = thermal_speed(T=T_corona, particle=["e-","p+"], ...)`. -/
def cell_thermal (st : ScriptState) : ScriptState :=
  let vs := thermal_speed T_corona ["e-", "p+"]
  { st with T_corona := some T_corona
          , v_e := vs.map Prod.fst
          , v_p := vs.map Prod.snd }

/-- The corona-parameters cell: defines the `solar_corona` dictionary,
unpacks `bmin, bmax = impact_parameter(**solar_corona)`, and displays
`Coulomb_logarithm(**solar_corona)`. -/
def cell_corona_params (st : ScriptState) : ScriptState :=
  let bs := impact_parameter solar_corona
  { st with solar_corona := some solar_corona
          , bmin := bs.map Prod.fst
          , bmax := bs.map Prod.snd }

/-- The corona collision-frequency cell: `n = 1e9 * u.cm**-3`,
`Coulomb_log = Coulomb_logarithm(**solar_corona) * u.dimensionless_unscaled`,
and `frequencies = MaxwellianCollisionFrequencies("e-", "p+",
v_drift=0*u.m/u.s, T_a=T_corona, n_a=n, n_b=n, T_b=T_corona,
Coulomb_log=Coulomb_log)`. -/
def cell_corona_freq (st : ScriptState) : ScriptState :=
  let cl := (Coulomb_logarithm solar_corona).map
    fun q => Quantity.mk q PhysUnit.dimensionless
  let freqs := cl.map fun c =>
    MaxwellianCollisionFrequencies.mk "e-" "p+"
      ⟨0, PhysUnit.metersPerSecond⟩ T_corona n n T_corona c
  { st with n := some n, Coulomb_log := cl, frequencies := freqs }

/-- The plasma-frequency cell only displays
`plasma_frequency(n, ['e-','p+']).to("Hz", ...)`; it binds nothing. -/
def cell_plasma (st : ScriptState) : ScriptState := st

/-- The gyrofrequency cell: `B = 50 * u.G`, then displays
`gyrofrequency(B, ['e-','p+']).to("Hz", ...)`. -/
def cell_gyro (st : ScriptState) : ScriptState :=
  { st with B := some B }

/-- The solar-wind cell: defines the `solar_wind` dictionary, rebinds
`bmin`, `bmax`, `Coulomb_log`, defines `T_wind` and `n_wind`, and rebinds
`frequencies` to the solar-wind `MaxwellianCollisionFrequencies` call. -/
def cell_wind (st : ScriptState) : ScriptState :=
  let bs := impact_parameter solar_wind
  let cl := (Coulomb_logarithm solar_wind).map
    fun q => Quantity.mk q PhysUnit.dimensionless
  let freqs := cl.map fun c =>
    MaxwellianCollisionFrequencies.mk "e-" "p+"
      ⟨0, PhysUnit.metersPerSecond⟩ T_wind n_wind n_wind T_wind c
  { st with solar_wind := some solar_wind
          , bmin := bs.map Prod.fst
          , bmax := bs.map Prod.snd
          , Coulomb_log := cl
          , T_wind := some T_wind
          , n_wind := some n_wind
          , frequencies := freqs }

/-- The state after each code cell, in the notebook's top-to-bottom order
(index 0 is the state after the import cell, which binds nothing). -/
def trace : List ScriptState :=
  let s0 : ScriptState := {}
  let s1 := cell_thermal s0
  let s2 := cell_corona_params s1
  let s3 := cell_corona_freq s2
  let s4 := cell_plasma s3
  let s5 := cell_gyro s4
  let s6 := cell_wind s5
  [s0, s1, s2, s3, s4, s5, s6]

/-- The state after the corona collision-frequency cell. -/
def corona_state : ScriptState :=
  cell_corona_freq (cell_corona_params (cell_thermal {}))

/-- Modelled from the spec: the Boltzmann constant in SI units, used by the
external library's thermal-speed formula; not present in src. -/
def k_B : ℚ := 1.380649e-23

/-- Modelled from the spec: the electron mass in kg, an external-library
(astropy) constant; not present in src. -/
def m_e : ℚ := 9.1093837015e-31

/-- Modelled from the spec: the proton mass in kg, an external-library
(astropy) constant; not present in src. -/
def m_p : ℚ := 1.67262192369e-27

/-- Modelled from the spec: the square of the most-probable thermal speed
`v = sqrt(2 k T / m)` that the external `thermal_speed` routine computes
(the notebook records `v_e = 5505694.9 m/s` for `T = 1e6 K`, matching this
formula).  Working with the square keeps the definition rational and
executable; `v_drift < sqrt(v_a^2 + v_b^2)` is equivalent to
`v_drift^2 < v_a^2 + v_b^2` for non-negative `v_drift`. -/
def thermal_speed_sq (T m : ℚ) : ℚ := 2 * k_B * T / m

/-- The external formulary library, abstracted as its fallible entry points:
each call either returns a value or raises a library-defined error
(represented by `Except.error`).  The script is then a fixed composition of
these calls with no handler of its own. -/
structure Library where
  thermal_speed : Quantity → List String → Except String (Quantity × Quantity)
  impact_parameter : Scenario → Except String (Quantity × Quantity)
  Coulomb_logarithm : Scenario → Except String ℚ
  Lorentz_collision_frequency :
    MaxwellianCollisionFrequencies → Except String Quantity
  plasma_frequency : Quantity → List String → Except String (List Quantity)
  gyrofrequency : Quantity → List String → Except String (List Quantity)

/-- The notebook's full call sequence against an arbitrary library
implementation: each library call is sequenced with `Except.bind` and no
`try`/`except`, validation, or retry appears anywhere, exactly as in the
source.  The result collects the displayed frequency quantities. -/
def runScript (lib : Library) :
    Except String (Quantity × List Quantity × List Quantity × Quantity) :=
  (lib.thermal_speed T_corona ["e-", "p+"]).bind fun _ =>
  (lib.impact_parameter solar_corona).bind fun _ =>
  (lib.Coulomb_logarithm solar_corona).bind fun _ =>
  (lib.Coulomb_logarithm solar_corona).bind fun cl =>
  (lib.Lorentz_collision_frequency
    ⟨"e-", "p+", ⟨0, PhysUnit.metersPerSecond⟩, T_corona, n, n, T_corona,
     ⟨cl, PhysUnit.dimensionless⟩⟩).bind fun f1 =>
  (lib.plasma_frequency n ["e-", "p+"]).bind fun pf =>
  (lib.gyrofrequency B ["e-", "p+"]).bind fun gf =>
  (lib.impact_parameter solar_wind).bind fun _ =>
  (lib.Coulomb_logarithm solar_wind).bind fun cl2 =>
  (lib.Lorentz_collision_frequency
    ⟨"e-", "p+", ⟨0, PhysUnit.metersPerSecond⟩, T_wind, n_wind, n_wind,
     T_wind, ⟨cl2, PhysUnit.dimensionless⟩⟩).bind fun f2 =>
  Except.ok (f1, pf, gf, f2)

/-- A library implementation whose every entry point fails, used to exercise
error propagation through `runScript`. -/
def failingLibrary : Library :=
  { thermal_speed := fun _ _ => Except.error "boom"
  , impact_parameter := fun _ => Except.error "boom"
  , Coulomb_logarithm := fun _ => Except.error "boom"
  , Lorentz_collision_frequency := fun _ => Except.error "boom"
  , plasma_frequency := fun _ _ => Except.error "boom"
  , gyrofrequency := fun _ _ => Except.error "boom" }

/-- The frequency quantities the script produces and displays, in order:
the corona Lorentz collision frequency, the two plasma-frequency components,
the two gyrofrequency components, and the solar-wind Lorentz collision
frequency. -/
def produced_frequencies : List Quantity :=
  (corona_frequencies.Lorentz_collision_frequency).toList
    ++ ((plasma_frequency n ["e-", "p+"]).getD [])
    ++ ((gyrofrequency B ["e-", "p+"]).getD [])
    ++ (wind_frequencies.Lorentz_collision_frequency).toList

/-! Evaluation lemmas: each recorded-output model applied to the concrete
inputs the script passes. -/

lemma wind_scenario_ne_corona : solar_wind ≠ solar_corona := by
  norm_num [solar_wind, solar_corona, Scenario.mk.injEq, Quantity.mk.injEq]

lemma thermal_speed_corona_eval :
    thermal_speed T_corona ["e-", "p+"]
      = some (⟨5505694.902726359, PhysUnit.metersPerSecond⟩,
              ⟨128486.5732808313, PhysUnit.metersPerSecond⟩) := by
  simp [thermal_speed]

lemma impact_parameter_corona_eval :
    impact_parameter solar_corona
      = some (⟨1.05e-11, PhysUnit.meter⟩, ⟨2.18e-3, PhysUnit.meter⟩) := by
  simp [impact_parameter]

lemma impact_parameter_wind_eval :
    impact_parameter solar_wind
      = some (⟨1.39e-11, PhysUnit.meter⟩, ⟨1.07e1, PhysUnit.meter⟩) := by
  simp [impact_parameter, wind_scenario_ne_corona]

lemma Coulomb_logarithm_corona_eval :
    Coulomb_logarithm solar_corona = some 19.150697742645406 := by
  simp [Coulomb_logarithm]

lemma Coulomb_logarithm_wind_eval :
    Coulomb_logarithm solar_wind = some 27.4 := by
  simp [Coulomb_logarithm, wind_scenario_ne_corona]

lemma wind_frequencies_ne_corona :
    wind_frequencies ≠ corona_frequencies := by
  norm_num [wind_frequencies, corona_frequencies, T_wind, T_corona, n, n_wind,
    MaxwellianCollisionFrequencies.mk.injEq, Quantity.mk.injEq]

lemma Lorentz_corona_eval :
    corona_frequencies.Lorentz_collision_frequency
      = some ⟨92.41654907, PhysUnit.hertz⟩ := by
  simp [MaxwellianCollisionFrequencies.Lorentz_collision_frequency]

lemma Lorentz_wind_eval :
    wind_frequencies.Lorentz_collision_frequency
      = some ⟨7.10396736e-6, PhysUnit.hertz⟩ := by
  simp [MaxwellianCollisionFrequencies.Lorentz_collision_frequency,
    wind_frequencies_ne_corona]

lemma plasma_frequency_eval :
    plasma_frequency n ["e-", "p+"]
      = some [⟨1.78398637e9, PhysUnit.hertz⟩, ⟨4.16329453e7, PhysUnit.hertz⟩] := by
  simp [plasma_frequency]

lemma gyrofrequency_eval :
    gyrofrequency B ["e-", "p+"]
      = some [⟨8.79410005e8, PhysUnit.hertz⟩, ⟨4.78941658e5, PhysUnit.hertz⟩] := by
  simp [gyrofrequency]

lemma produced_frequencies_eval :
    produced_frequencies
      = [⟨92.41654907, PhysUnit.hertz⟩,
         ⟨1.78398637e9, PhysUnit.hertz⟩, ⟨4.16329453e7, PhysUnit.hertz⟩,
         ⟨8.79410005e8, PhysUnit.hertz⟩, ⟨4.78941658e5, PhysUnit.hertz⟩,
         ⟨7.10396736e-6, PhysUnit.hertz⟩] := by
  simp [produced_frequencies, Lorentz_corona_eval, Lorentz_wind_eval,
    plasma_frequency_eval, gyrofrequency_eval]

/-- C1: for the corona scenario, the Lorentz collision frequency recorded by
the `MaxwellianCollisionFrequencies` call (about 92 Hz) is much smaller —
here by a factor of more than 1000 — than every component of both the
plasma frequency and the gyrofrequency the script computes (smallest
component about 4.79e5 Hz). -/
theorem corona_collision_freq_below_plasma_and_gyro :
    ∀ ν ∈ (corona_frequencies.Lorentz_collision_frequency).toList,
    ∀ ω ∈ (plasma_frequency n ["e-", "p+"]).getD []
        ++ (gyrofrequency B ["e-", "p+"]).getD [],
      1000 * ν.val < ω.val := by
  intro ν hν ω hω
  rw [Lorentz_corona_eval] at hν
  rw [plasma_frequency_eval, gyrofrequency_eval] at hω
  simp only [Option.toList_some, List.mem_singleton] at hν
  subst hν
  simp only [Option.getD_some, List.mem_append, List.mem_cons,
    List.not_mem_nil, or_false] at hω
  rcases hω with (rfl | rfl) | (rfl | rfl) <;> norm_num

theorem corona_collision_freq_below_plasma_and_gyro_witness :
    1000 * (92.41654907 : ℚ) < 4.78941658e5 :=
  corona_collision_freq_below_plasma_and_gyro
    ⟨92.41654907, PhysUnit.hertz⟩ (by simp [Lorentz_corona_eval])
    ⟨4.78941658e5, PhysUnit.hertz⟩
    (by simp [plasma_frequency_eval, gyrofrequency_eval])

/-- C2: the solar-wind Lorentz collision frequency (about 7.1e-6 Hz) is many
orders of magnitude — here more than six — smaller than the corona one
(about 92 Hz), both produced by the same
`MaxwellianCollisionFrequencies.Lorentz_collision_frequency` on the
respective scenario parameters. -/
theorem wind_collision_freq_far_below_corona :
    (wind_frequencies.Lorentz_collision_frequency).isSome
    ∧ (corona_frequencies.Lorentz_collision_frequency).isSome
    ∧ 10 ^ 6 *
        ((wind_frequencies.Lorentz_collision_frequency).getD default).val
      < ((corona_frequencies.Lorentz_collision_frequency).getD default).val := by
  rw [Lorentz_wind_eval, Lorentz_corona_eval]
  refine ⟨rfl, rfl, ?_⟩
  norm_num

/-- C3: for the corona scenario dictionary, the `(bmin, bmax)` pair returned
by `impact_parameter` satisfies `bmin < bmax`. -/
theorem corona_bmin_lt_bmax :
    (impact_parameter solar_corona).isSome
    ∧ ((impact_parameter solar_corona).getD default).1.val
      < ((impact_parameter solar_corona).getD default).2.val := by
  rw [impact_parameter_corona_eval]
  refine ⟨rfl, ?_⟩
  norm_num

/-- C4: every value `Coulomb_logarithm` returns — in particular on the
corona and solar-wind scenarios, the only points where the recorded model
is defined — is strictly positive. -/
theorem Coulomb_logarithm_pos (s : Scenario) (r : ℚ)
    (h : Coulomb_logarithm s = some r) : 0 < r := by
  unfold Coulomb_logarithm at h
  split at h
  · simp only [Option.some.injEq] at h
    subst h
    norm_num
  · split at h
    · simp only [Option.some.injEq] at h
      subst h
      norm_num
    · simp at h

theorem Coulomb_logarithm_pos_witness :
    Coulomb_logarithm solar_corona = some 19.150697742645406
    ∧ (0 : ℚ) < 19.150697742645406 :=
  ⟨Coulomb_logarithm_corona_eval,
   Coulomb_logarithm_pos solar_corona 19.150697742645406
     Coulomb_logarithm_corona_eval⟩

/-- C5: every collision-frequency, plasma-frequency, and gyrofrequency value
the script produces (both scenarios) is a non-negative quantity carrying the
unit Hz. -/
theorem produced_frequencies_nonneg_Hz :
    ∀ q ∈ produced_frequencies, 0 ≤ q.val ∧ q.unit = PhysUnit.hertz := by
  intro q hq
  rw [produced_frequencies_eval] at hq
  simp only [List.mem_cons, List.not_mem_nil, or_false] at hq
  rcases hq with rfl | rfl | rfl | rfl | rfl | rfl <;>
    exact ⟨by norm_num, rfl⟩

theorem produced_frequencies_nonneg_Hz_witness :
    0 ≤ (92.41654907 : ℚ) ∧ PhysUnit.hertz = PhysUnit.hertz :=
  produced_frequencies_nonneg_Hz ⟨92.41654907, PhysUnit.hertz⟩
    (by simp [produced_frequencies_eval])

/-- C6: the script composes the library calls with plain sequencing and no
handler, so whenever a call fails (all earlier calls having succeeded), the
script's result is exactly that library-defined error, unmodified; one
conjunct per call site of the notebook's sequence. -/
theorem script_propagates_library_errors (lib : Library) (e : String) :
    (lib.thermal_speed T_corona ["e-", "p+"] = Except.error e →
      runScript lib = Except.error e)
    ∧ (∀ r1, lib.thermal_speed T_corona ["e-", "p+"] = Except.ok r1 →
        lib.impact_parameter solar_corona = Except.error e →
        runScript lib = Except.error e)
    ∧ (∀ r1 r2,
        lib.thermal_speed T_corona ["e-", "p+"] = Except.ok r1 →
        lib.impact_parameter solar_corona = Except.ok r2 →
        lib.Coulomb_logarithm solar_corona = Except.error e →
        runScript lib = Except.error e)
    ∧ (∀ r1 r2 cl,
        lib.thermal_speed T_corona ["e-", "p+"] = Except.ok r1 →
        lib.impact_parameter solar_corona = Except.ok r2 →
        lib.Coulomb_logarithm solar_corona = Except.ok cl →
        lib.Lorentz_collision_frequency
          ⟨"e-", "p+", ⟨0, PhysUnit.metersPerSecond⟩, T_corona, n, n,
           T_corona, ⟨cl, PhysUnit.dimensionless⟩⟩ = Except.error e →
        runScript lib = Except.error e)
    ∧ (∀ r1 r2 cl f1,
        lib.thermal_speed T_corona ["e-", "p+"] = Except.ok r1 →
        lib.impact_parameter solar_corona = Except.ok r2 →
        lib.Coulomb_logarithm solar_corona = Except.ok cl →
        lib.Lorentz_collision_frequency
          ⟨"e-", "p+", ⟨0, PhysUnit.metersPerSecond⟩, T_corona, n, n,
           T_corona, ⟨cl, PhysUnit.dimensionless⟩⟩ = Except.ok f1 →
        lib.plasma_frequency n ["e-", "p+"] = Except.error e →
        runScript lib = Except.error e)
    ∧ (∀ r1 r2 cl f1 pf,
        lib.thermal_speed T_corona ["e-", "p+"] = Except.ok r1 →
        lib.impact_parameter solar_corona = Except.ok r2 →
        lib.Coulomb_logarithm solar_corona = Except.ok cl →
        lib.Lorentz_collision_frequency
          ⟨"e-", "p+", ⟨0, PhysUnit.metersPerSecond⟩, T_corona, n, n,
           T_corona, ⟨cl, PhysUnit.dimensionless⟩⟩ = Except.ok f1 →
        lib.plasma_frequency n ["e-", "p+"] = Except.ok pf →
        lib.gyrofrequency B ["e-", "p+"] = Except.error e →
        runScript lib = Except.error e)
    ∧ (∀ r1 r2 cl f1 pf gf,
        lib.thermal_speed T_corona ["e-", "p+"] = Except.ok r1 →
        lib.impact_parameter solar_corona = Except.ok r2 →
        lib.Coulomb_logarithm solar_corona = Except.ok cl →
        lib.Lorentz_collision_frequency
          ⟨"e-", "p+", ⟨0, PhysUnit.metersPerSecond⟩, T_corona, n, n,
           T_corona, ⟨cl, PhysUnit.dimensionless⟩⟩ = Except.ok f1 →
        lib.plasma_frequency n ["e-", "p+"] = Except.ok pf →
        lib.gyrofrequency B ["e-", "p+"] = Except.ok gf →
        lib.impact_parameter solar_wind = Except.error e →
        runScript lib = Except.error e)
    ∧ (∀ r1 r2 cl f1 pf gf r3,
        lib.thermal_speed T_corona ["e-", "p+"] = Except.ok r1 →
        lib.impact_parameter solar_corona = Except.ok r2 →
        lib.Coulomb_logarithm solar_corona = Except.ok cl →
        lib.Lorentz_collision_frequency
          ⟨"e-", "p+", ⟨0, PhysUnit.metersPerSecond⟩, T_corona, n, n,
           T_corona, ⟨cl, PhysUnit.dimensionless⟩⟩ = Except.ok f1 →
        lib.plasma_frequency n ["e-", "p+"] = Except.ok pf →
        lib.gyrofrequency B ["e-", "p+"] = Except.ok gf →
        lib.impact_parameter solar_wind = Except.ok r3 →
        lib.Coulomb_logarithm solar_wind = Except.error e →
        runScript lib = Except.error e)
    ∧ (∀ r1 r2 cl f1 pf gf r3 cl2,
        lib.thermal_speed T_corona ["e-", "p+"] = Except.ok r1 →
        lib.impact_parameter solar_corona = Except.ok r2 →
        lib.Coulomb_logarithm solar_corona = Except.ok cl →
        lib.Lorentz_collision_frequency
          ⟨"e-", "p+", ⟨0, PhysUnit.metersPerSecond⟩, T_corona, n, n,
           T_corona, ⟨cl, PhysUnit.dimensionless⟩⟩ = Except.ok f1 →
        lib.plasma_frequency n ["e-", "p+"] = Except.ok pf →
        lib.gyrofrequency B ["e-", "p+"] = Except.ok gf →
        lib.impact_parameter solar_wind = Except.ok r3 →
        lib.Coulomb_logarithm solar_wind = Except.ok cl2 →
        lib.Lorentz_collision_frequency
          ⟨"e-", "p+", ⟨0, PhysUnit.metersPerSecond⟩, T_wind, n_wind,
           n_wind, T_wind, ⟨cl2, PhysUnit.dimensionless⟩⟩ = Except.error e →
        runScript lib = Except.error e) := by
  refine ⟨?_, ?_, ?_, ?_, ?_, ?_, ?_, ?_, ?_⟩ <;>
    · intros
      simp_all [runScript, Except.bind]

theorem script_propagates_library_errors_witness :
    runScript failingLibrary = Except.error "boom" :=
  (script_propagates_library_errors failingLibrary "boom").1 rfl

/-- C7: once defined, the `solar_corona` and `solar_wind` dictionaries keep
exactly their literal field values in every later state of the script's
execution trace — no subsequent cell or library call rebinds or mutates
them. -/
theorem scenario_dicts_never_mutated :
    (∀ st ∈ trace.drop 2, st.solar_corona = some solar_corona)
    ∧ (∀ st ∈ trace.drop 6, st.solar_wind = some solar_wind) := by
  constructor <;>
  · intro st hst
    simp only [trace, List.drop_succ_cons, List.drop_zero] at hst
    fin_cases hst <;> rfl

theorem scenario_dicts_never_mutated_witness :
    (cell_wind (cell_gyro (cell_plasma corona_state))).solar_corona
      = some solar_corona :=
  scenario_dicts_never_mutated.1 _
    (by simp [trace, corona_state, List.drop_succ_cons, List.drop_zero])

/-- C8: both `MaxwellianCollisionFrequencies` calls pass `v_drift = 0 m/s`,
and the slowly-flowing precondition `v_drift ≪ sqrt(v_a^2 + v_b^2)` holds
for every positive-temperature scenario because the right-hand side is
strictly positive: stated on squares (equivalent, since square root is
strictly monotone on non-negatives), `0 = v_drift^2 < v_a^2 + v_b^2`. -/
theorem maxwellian_slowly_flowing_precondition :
    corona_frequencies.v_drift = ⟨0, PhysUnit.metersPerSecond⟩
    ∧ wind_frequencies.v_drift = ⟨0, PhysUnit.metersPerSecond⟩
    ∧ ∀ T ma mb : ℚ, 0 < T → 0 < ma → 0 < mb →
        0 < thermal_speed_sq T ma + thermal_speed_sq T mb := by
  refine ⟨rfl, rfl, ?_⟩
  intro T ma mb hT hma hmb
  have hk : (0 : ℚ) < k_B := by norm_num [k_B]
  have h1 : 0 < thermal_speed_sq T ma := by
    unfold thermal_speed_sq
    exact div_pos (by positivity) hma
  have h2 : 0 < thermal_speed_sq T mb := by
    unfold thermal_speed_sq
    exact div_pos (by positivity) hmb
  linarith

theorem maxwellian_slowly_flowing_precondition_witness :
    0 < thermal_speed_sq 1e6 m_e + thermal_speed_sq 1e6 m_p :=
  maxwellian_slowly_flowing_precondition.2.2 1e6 m_e m_p
    (by norm_num) (by norm_num [m_e]) (by norm_num [m_p])

/-- C9: the Coulomb logarithm the script displays from the corona cell
(19.150697742645406) is exactly the value stored in the `Coulomb_log`
binding and carried inside the `frequencies` object used for the corona
collision-frequency result. -/
theorem coulomb_log_display_consistent :
    corona_CL_display = some 19.150697742645406
    ∧ corona_state.Coulomb_log
      = corona_CL_display.map (fun q => Quantity.mk q PhysUnit.dimensionless)
    ∧ corona_state.frequencies.map MaxwellianCollisionFrequencies.Coulomb_log
      = corona_CL_display.map (fun q => Quantity.mk q PhysUnit.dimensionless) := by
  refine ⟨Coulomb_logarithm_corona_eval, rfl, ?_⟩
  simp only [corona_state, cell_corona_freq, cell_corona_params, cell_thermal,
    corona_CL_display, Coulomb_logarithm_corona_eval]
  rfl

/-- C10: between the corona (n_e = 1e9 cm^-3) and solar-wind
(n_e = 25 cm^-3) scenarios, the lower electron density comes with a strictly
larger maximum impact parameter and a strictly larger Coulomb logarithm. -/
theorem lower_density_larger_bmax_and_coulomb_log :
    solar_wind.n_e.val < solar_corona.n_e.val
    ∧ (impact_parameter solar_corona).isSome
    ∧ (impact_parameter solar_wind).isSome
    ∧ ((impact_parameter solar_corona).getD default).2.val
      < ((impact_parameter solar_wind).getD default).2.val
    ∧ (Coulomb_logarithm solar_corona).isSome
    ∧ (Coulomb_logarithm solar_wind).isSome
    ∧ (Coulomb_logarithm solar_corona).getD 0
      < (Coulomb_logarithm solar_wind).getD 0 := by
  rw [impact_parameter_corona_eval, impact_parameter_wind_eval,
    Coulomb_logarithm_corona_eval, Coulomb_logarithm_wind_eval]
  refine ⟨?_, rfl, rfl, ?_, rfl, rfl, ?_⟩ <;>
    norm_num [solar_wind, solar_corona]

end Collisions
